import Mathlib

/-!
Shallow embedding of `src/email-tester.py` (class `EmailValidator`).

The Python module performs staged email validation:
  validate_syntax  : regex + structural checks, pure;
  validate_domain  : DNS A / AAAA lookup through dns.resolver, try/except;
  validate_mx_records : DNS MX lookup, try/except;
  validate_smtp    : MX lookup + SMTP transaction (connect, helo, mail,
                     rcpt, quit) through smtplib, try/except;
  validate_email   : the pipeline, short-circuiting at the first failure.

Python exceptions are modelled with `Except PyExc`; the network is an
explicit oracle (`DnsEnv` for dns.resolver.resolve, `SmtpEnv` for the
replies or exceptions of each smtplib call).  Each `validate_*` function
is written as a raw body (the `try` block, where an exception propagates
as `.error`) composed with the handler chain of its `except` clauses,
mirroring the Python line by line.
-/

/-- A Python exception, as the handlers of email-tester.py distinguish
them.  Each constructor carries `str(e)` where the code uses it. -/
inductive PyExc where
  /-- dns.resolver.NoAnswer -/
  | dnsNoAnswer (detail : String)
  /-- dns.resolver.NXDOMAIN -/
  | dnsNXDomain (detail : String)
  /-- dns.resolver.NoNameservers -/
  | dnsNoNameservers (detail : String)
  /-- dns.resolver.Timeout -/
  | dnsTimeout (detail : String)
  /-- IndexError from `email.rsplit('@', 1)[1]` or `mx_records[0]` -/
  | indexError
  /-- smtplib.SMTPServerDisconnected -/
  | smtpServerDisconnected (detail : String)
  /-- smtplib.SMTPResponseException, with smtp_code and smtp_error -/
  | smtpRespExc (code : Nat) (errMsg : String)
  /-- any other exception (OSError, socket.timeout, ValueError, ...) -/
  | otherExc (detail : String)
deriving Repr, DecidableEq

/-- `str(e)` of a modelled exception, as the generic
`except Exception as e` handlers interpolate it. -/
def excStr : PyExc → String
  | .dnsNoAnswer d => d
  | .dnsNXDomain d => d
  | .dnsNoNameservers d => d
  | .dnsTimeout d => d
  | .indexError => "list index out of range"
  | .smtpServerDisconnected d => d
  | .smtpRespExc _ e => e
  | .otherExc d => d

/-- Outcome of one `dns.resolver.resolve(domain, rtype)` call: a successful
answer (for MX, the `str(r.exchange)` of each record) or an exception. -/
inductive DnsOutcome where
  | ans (records : List String)
  | noAnswer (detail : String)
  | nxdomain (detail : String)
  | noNameservers (detail : String)
  | timeout (detail : String)
  | otherErr (detail : String)
deriving Repr, DecidableEq

/-- Raise the exception of a DNS outcome, or return its records. -/
def dnsRaise : DnsOutcome → Except PyExc (List String)
  | .ans rs => .ok rs
  | .noAnswer d => .error (.dnsNoAnswer d)
  | .nxdomain d => .error (.dnsNXDomain d)
  | .noNameservers d => .error (.dnsNoNameservers d)
  | .timeout d => .error (.dnsTimeout d)
  | .otherErr d => .error (.otherExc d)

/-- The DNS environment: what `dns.resolver.resolve` returns for each
domain string and record type, held constant during one validation. -/
structure DnsEnv where
  a : String → DnsOutcome
  aaaa : String → DnsOutcome
  mx : String → DnsOutcome

/-- Outcome of one smtplib call (connect, helo, mail, rcpt or quit): the
server reply `(code, message)` handed back to the caller, or an exception. -/
inductive SmtpStep where
  | reply (code : Nat) (msg : String)
  | disconnected (detail : String)
  | respExc (code : Nat) (errMsg : String)
  | exc (detail : String)
deriving Repr, DecidableEq

/-- Raise the exception of an smtplib call, or return the server reply. -/
def stepRun : SmtpStep → Except PyExc (Nat × String)
  | .reply c m => .ok (c, m)
  | .disconnected d => .error (.smtpServerDisconnected d)
  | .respExc c e => .error (.smtpRespExc c e)
  | .exc d => .error (.otherExc d)

/-- The SMTP environment: the outcome of each smtplib call of the single
linear transaction of validate_smtp. -/
structure SmtpEnv where
  connect : SmtpStep
  helo : SmtpStep
  mail : SmtpStep
  rcpt : SmtpStep
  quit : SmtpStep
deriving Repr, DecidableEq

/-- Python whitespace for str.strip(): space, tab, newline, carriage
return, vertical tab, form feed. -/
def isPySpace (c : Char) : Bool :=
  c = ' ' || c = '\t' || c = '\n' || c = '\r' || c = Char.ofNat 11 || c = Char.ofNat 12

/-- `email.strip()`. -/
def pyStrip (s : String) : String :=
  ⟨((s.data.dropWhile isPySpace).reverse.dropWhile isPySpace).reverse⟩

/-- Characters of the regex class `[a-zA-Z0-9._%+-]` (local part). -/
def isLocalChar (c : Char) : Bool :=
  (c.isAlpha && c.toNat < 128) || c.isDigit || c = '.' || c = '_' || c = '%' || c = '+' || c = '-'

/-- Characters of the regex class `[a-zA-Z0-9.-]` (domain part). -/
def isDomainChar (c : Char) : Bool :=
  (c.isAlpha && c.toNat < 128) || c.isDigit || c = '.' || c = '-'

/-- ASCII letter, for the regex class `[a-zA-Z]`. -/
def isAsciiLetter (c : Char) : Bool :=
  c.isAlpha && c.toNat < 128

/-- `[a-zA-Z]{2,}$`: at least two letters and nothing else to the end. -/
def matchTld : List Char → Bool
  | c1 :: c2 :: rest => isAsciiLetter c1 && isAsciiLetter c2 && rest.all isAsciiLetter
  | _ => false

/-- Continue `[a-zA-Z0-9.-]+\.[a-zA-Z]{2,}$` after at least one domain
character: either the literal dot of `\.` comes now, or one more domain
character is consumed (the boolean or explores both, which is the
match-existence semantics of the regex's backtracking). -/
def matchDomTail : List Char → Bool
  | [] => false
  | c :: rest => (c = '.' && matchTld rest) || (isDomainChar c && matchDomTail rest)

/-- `[a-zA-Z0-9.-]+\.[a-zA-Z]{2,}$`. -/
def matchDom : List Char → Bool
  | [] => false
  | c :: rest => isDomainChar c && matchDomTail rest

/-- Continue `[a-zA-Z0-9._%+-]+@...$` after at least one local character:
either the literal `@` comes now, or one more local character is consumed. -/
def matchLocTail : List Char → Bool
  | [] => false
  | c :: rest => (c = '@' && matchDom rest) || (isLocalChar c && matchLocTail rest)

/-- The whole anchored pattern
`^[a-zA-Z0-9._%+-]+@[a-zA-Z0-9.-]+\.[a-zA-Z]{2,}$` of
`self.email_regex.match(email)`. -/
def emailRegexMatch (s : String) : Bool :=
  match s.data with
  | [] => false
  | c :: rest => isLocalChar c && matchLocTail rest

/-- `s.rsplit('@', 1)` when `'@'` occurs in `s`: the parts before and
after the last `'@'`.  `none` when `s` has no `'@'`. -/
def rsplitAux : List Char → Option (List Char × List Char)
  | [] => none
  | c :: rest =>
    match rsplitAux rest with
    | some (l, r) => some (c :: l, r)
    | none => if c = '@' then some ([], rest) else none

/-- String version of `rsplitAux`. -/
def rsplitAtLast (s : String) : Option (String × String) :=
  match rsplitAux s.data with
  | some (l, r) => some (⟨l⟩, ⟨r⟩)
  | none => none

/-- `email.rsplit('@', 1)[1]`: the domain part, or the IndexError Python
raises when the split of an `'@'`-free string yields a one-element list. -/
def rsplitDomain (email : String) : Except PyExc String :=
  match rsplitAtLast email with
  | some (_, domain) => .ok domain
  | none => .error .indexError

/-- `local_part.startswith('.')`. -/
def startsWithDot (s : String) : Bool :=
  match s.data with
  | '.' :: _ => true
  | _ => false

/-- `local_part.endswith('.')`. -/
def endsWithDot (s : String) : Bool :=
  match s.data.getLast? with
  | some '.' => true
  | _ => false

/-- `'..' in email`. -/
def hasConsecutiveDots : List Char → Bool
  | [] => false
  | '.' :: '.' :: _ => true
  | _ :: rest => hasConsecutiveDots rest

/-- `', '.join(l)`. -/
def commaJoin : List String → String
  | [] => ""
  | [x] => x
  | x :: rest => x ++ ", " ++ commaJoin rest

/-- `EmailValidator.validate_syntax` (src/email-tester.py lines 16-49).
The unpacking `local_part, domain = email.rsplit('@', 1)` would raise a
ValueError on an `'@'`-free string; the regex makes that unreachable, and
the embedding keeps the error so that nothing is assumed silently. -/
def validate_syntax (email : String) : Except PyExc (Bool × String) :=
  if email = "" then .ok (false, "Email must be a non-empty string")
  else
    let e := pyStrip email
    if emailRegexMatch e = false then .ok (false, "Invalid email format")
    else
      match rsplitAtLast e with
      | none => .error (.otherExc "not enough values to unpack (expected 2, got 1)")
      | some (local_part, domain) =>
        if local_part.length > 64 then
          .ok (false, "Local part (before @) is too long (max 64 chars)")
        else if domain.length > 255 then
          .ok (false, "Domain part is too long (max 255 chars)")
        else if hasConsecutiveDots e.data then
          .ok (false, "Email contains consecutive dots")
        else if startsWithDot local_part || endsWithDot local_part then
          .ok (false, "Local part cannot start or end with a dot")
        else .ok (true, "Syntax is valid")

/-- The try-block of `EmailValidator.validate_domain` (lines 58-71): the
A lookup; on NoAnswer, the AAAA lookup, whose bare `except` converts any
failure into the no-records result.  Other exceptions propagate to the
outer handlers. -/
def validate_domain_body (dns : DnsEnv) (email : String) : Except PyExc (Bool × String) :=
  match rsplitDomain email with
  | .error e => .error e
  | .ok domain =>
    match dns.a domain with
    | .ans _ => .ok (true, "Domain exists")
    | .noAnswer _ =>
      match dns.aaaa domain with
      | .ans _ => .ok (true, "Domain exists (IPv6)")
      | _ => .ok (false, "Domain has no A or AAAA records")
    | .nxdomain d => .error (.dnsNXDomain d)
    | .noNameservers d => .error (.dnsNoNameservers d)
    | .timeout d => .error (.dnsTimeout d)
    | .otherErr d => .error (.otherExc d)

/-- `EmailValidator.validate_domain` (lines 51-80): the body under its
except clauses, in their order (NXDOMAIN, NoNameservers, Timeout,
Exception). -/
def validate_domain (dns : DnsEnv) (email : String) : Except PyExc (Bool × String) :=
  match validate_domain_body dns email with
  | .ok r => .ok r
  | .error (.dnsNXDomain _) => .ok (false, "Domain does not exist")
  | .error (.dnsNoNameservers _) => .ok (false, "No nameservers found for domain")
  | .error (.dnsTimeout _) => .ok (false, "DNS query timed out")
  | .error e => .ok (false, "DNS error: " ++ excStr e)

/-- The try-block of `EmailValidator.validate_mx_records` (lines 89-99). -/
def validate_mx_records_body (dns : DnsEnv) (email : String) : Except PyExc (Bool × String) :=
  match rsplitDomain email with
  | .error e => .error e
  | .ok domain =>
    match dnsRaise (dns.mx domain) with
    | .error e => .error e
    | .ok mx_list =>
      if mx_list.isEmpty = false then
        .ok (true, "MX records found: " ++ commaJoin (mx_list.take 3))
      else
        .ok (false, "No MX records found")

/-- `EmailValidator.validate_mx_records` (lines 82-106): the body under
its except clauses, in their order (NoAnswer, NXDOMAIN, Exception). -/
def validate_mx_records (dns : DnsEnv) (email : String) : Except PyExc (Bool × String) :=
  match validate_mx_records_body dns email with
  | .ok r => .ok r
  | .error (.dnsNoAnswer _) => .ok (false, "No MX records for domain")
  | .error (.dnsNXDomain _) => .ok (false, "Domain does not exist")
  | .error e => .ok (false, "MX lookup error: " ++ excStr e)

/-- What the SMTP transaction of one validate_smtp run touched:
whether `server.connect(mx_host)` was reached, and whether
`server.quit()` was reached (counted even when quit itself raises). -/
structure SmtpTrace where
  connectAttempted : Bool
  quitAttempted : Bool
deriving Repr, DecidableEq

/-- The try-block of `EmailValidator.validate_smtp` (lines 116-135),
with the trace of the transaction.  The linear order is exactly the
Python's: domain split, MX resolve, `mx_records[0]`, connect, helo,
mail, rcpt, quit, then the rcpt code is interpreted. -/
def validate_smtp_run (dns : DnsEnv) (smtp : SmtpEnv) (email : String) :
    Except PyExc (Bool × String) × SmtpTrace :=
  match rsplitDomain email with
  | .error e => (.error e, ⟨false, false⟩)
  | .ok domain =>
    match dnsRaise (dns.mx domain) with
    | .error e => (.error e, ⟨false, false⟩)
    | .ok mxs =>
      match mxs with
      | [] => (.error .indexError, ⟨false, false⟩)
      | _mx_host :: _ =>
        match stepRun smtp.connect with
        | .error e => (.error e, ⟨true, false⟩)
        | .ok _ =>
          match stepRun smtp.helo with
          | .error e => (.error e, ⟨true, false⟩)
          | .ok _ =>
            match stepRun smtp.mail with
            | .error e => (.error e, ⟨true, false⟩)
            | .ok _ =>
              match stepRun smtp.rcpt with
              | .error e => (.error e, ⟨true, false⟩)
              | .ok (code, message) =>
                match stepRun smtp.quit with
                | .error e => (.error e, ⟨true, true⟩)
                | .ok _ =>
                  if code = 250 || code = 251 then
                    (.ok (true, "SMTP verification passed (code " ++ toString code ++ ")"),
                     ⟨true, true⟩)
                  else
                    (.ok (false, "SMTP verification failed (code " ++ toString code ++ "): "
                        ++ message),
                     ⟨true, true⟩)

/-- The except clauses of validate_smtp (lines 137-142) as a handler over
the try-block's outcome, in their order (SMTPServerDisconnected,
SMTPResponseException, Exception). -/
def smtpHandle : Except PyExc (Bool × String) → Except PyExc (Bool × String)
  | .ok r => .ok r
  | .error (.smtpServerDisconnected _) => .ok (false, "SMTP server disconnected")
  | .error (.smtpRespExc c e) => .ok (false, "SMTP error (" ++ toString c ++ "): " ++ e)
  | .error e => .ok (false, "SMTP verification unavailable: " ++ excStr e)

/-- `EmailValidator.validate_smtp` (lines 108-142): the transaction under
its except clauses; the handlers do not touch the trace. -/
def validate_smtp (dns : DnsEnv) (smtp : SmtpEnv) (email : String) :
    Except PyExc (Bool × String) × SmtpTrace :=
  (smtpHandle (validate_smtp_run dns smtp email).fst,
   (validate_smtp_run dns smtp email).snd)

/-- One entry of the `checks` mapping: `{'valid': ..., 'message': ...}`. -/
structure CheckResult where
  valid : Bool
  message : String
deriving Repr, DecidableEq

/-- The dictionary `validate_email` returns: `email`, `is_valid`, and the
insertion-ordered `checks` mapping. -/
structure Report where
  email : String
  is_valid : Bool
  checks : List (String × CheckResult)
deriving Repr, DecidableEq

/-- `EmailValidator.validate_email` (lines 144-189): syntax, then domain,
then MX, then (only when `check_smtp`) SMTP, stopping with
`is_valid = False` at the first failing stage.  An exception a stage let
escape would propagate here through the bind of `Except`. -/
def validate_email (dns : DnsEnv) (smtp : SmtpEnv) (email : String) (check_smtp : Bool) :
    Except PyExc Report := do
  let (v1, m1) ← validate_syntax email
  let checks1 := [("syntax", CheckResult.mk v1 m1)]
  if v1 = false then return { email := email, is_valid := false, checks := checks1 }
  let (v2, m2) ← validate_domain dns email
  let checks2 := checks1 ++ [("domain", CheckResult.mk v2 m2)]
  if v2 = false then return { email := email, is_valid := false, checks := checks2 }
  let (v3, m3) ← validate_mx_records dns email
  let checks3 := checks2 ++ [("mx_records", CheckResult.mk v3 m3)]
  if v3 = false then return { email := email, is_valid := false, checks := checks3 }
  if check_smtp then
    let (v4, m4) ← (validate_smtp dns smtp email).fst
    let checks4 := checks3 ++ [("smtp", CheckResult.mk v4 m4)]
    if v4 = false then return { email := email, is_valid := false, checks := checks4 }
    return { email := email, is_valid := true, checks := checks4 }
  else
    return { email := email, is_valid := true, checks := checks3 }

/-- The CheckResult stored under key `k` of a report, if any. -/
def Report.getCheck (r : Report) (k : String) : Option CheckResult :=
  r.checks.lookup k

/-- Whether the report's checks mapping contains key `k`. -/
def Report.hasCheck (r : Report) (k : String) : Bool :=
  (r.checks.lookup k).isSome

/-- Whether key `k` is present and its entry is valid. -/
def Report.checkValid (r : Report) (k : String) : Bool :=
  match r.checks.lookup k with
  | some c => c.valid
  | none => false

/-- Whether an smtplib call hands back a reply (raises nothing). -/
def SmtpStep.isReply : SmtpStep → Bool
  | .reply _ _ => true
  | _ => false

/-- A string the local-then-at part of the regex accepts contains an `'@'`
for `rsplitAux` to split on. -/
theorem rsplitAux_isSome_of_matchLocTail :
    ∀ l : List Char, matchLocTail l = true → (rsplitAux l).isSome = true := by
  intro l
  induction l with
  | nil => simp [matchLocTail]
  | cons c rest ih =>
    intro h
    simp only [matchLocTail, Bool.or_eq_true, Bool.and_eq_true, decide_eq_true_eq] at h
    simp only [rsplitAux]
    rcases hr : rsplitAux rest with _ | p
    · rcases h with ⟨hAt, _⟩ | ⟨_, hTail⟩
      · simp [hAt]
      · have := ih hTail
        rw [hr] at this
        simp at this
    · simp

/-- A regex-matching string splits at its last `'@'`. -/
theorem rsplitAtLast_isSome_of_regex (s : String) (h : emailRegexMatch s = true) :
    (rsplitAtLast s).isSome = true := by
  unfold emailRegexMatch at h
  unfold rsplitAtLast
  rcases hd : s.data with _ | ⟨c, rest⟩
  · rw [hd] at h; simp at h
  · rw [hd] at h
    simp only [Bool.and_eq_true] at h
    have hsome := rsplitAux_isSome_of_matchLocTail rest h.2
    rcases hr : rsplitAux rest with _ | ⟨l, r⟩
    · rw [hr] at hsome; simp at hsome
    · simp [rsplitAux, hr]

/-- validate_syntax raises nothing: the ValueError-shaped branch of the
unpacking is unreachable because the regex guarantees an `'@'`. -/
theorem vs_total (email : String) : ∃ v m, validate_syntax email = .ok (v, m) := by
  by_cases he : email = ""
  · exact ⟨false, "Email must be a non-empty string", by simp [ validate_syntax, he]⟩
  · by_cases hm : emailRegexMatch (pyStrip email) = false
    · exact ⟨false, "Invalid email format", by simp [ validate_syntax, he, hm]⟩
    · have hm' : emailRegexMatch (pyStrip email) = true := by
        revert hm; cases emailRegexMatch (pyStrip email) <;> simp
      have hs := rsplitAtLast_isSome_of_regex (pyStrip email) hm'
      rcases h2 : rsplitAtLast (pyStrip email) with _ | ⟨lp, dom⟩
      · rw [h2] at hs; simp at hs
      · simp only [ validate_syntax, he, hm', h2, if_false, Bool.true_eq_false]
        split_ifs <;> exact ⟨_, _, rfl⟩

/-- validate_domain raises nothing: its final except clause catches every
exception. -/
theorem vd_total (dns : DnsEnv) (email : String) :
    ∃ v m, validate_domain dns email = .ok (v, m) := by
  unfold validate_domain
  rcases h : validate_domain_body dns email with e | r
  · cases e <;> exact ⟨_, _, rfl⟩
  · exact ⟨r.1, r.2, rfl⟩

/-- validate_mx_records raises nothing: its final except clause catches
every exception. -/
theorem vmx_total (dns : DnsEnv) (email : String) :
    ∃ v m, validate_mx_records dns email = .ok (v, m) := by
  unfold validate_mx_records
  rcases h : validate_mx_records_body dns email with e | r
  · cases e <;> exact ⟨_, _, rfl⟩
  · exact ⟨r.1, r.2, rfl⟩

/-- The handler chain of validate_smtp catches every exception. -/
theorem smtpHandle_total (x : Except PyExc (Bool × String)) :
    ∃ v m, smtpHandle x = .ok (v, m) := by
  rcases x with e | r
  · cases e <;> exact ⟨_, _, rfl⟩
  · exact ⟨r.1, r.2, rfl⟩

/-- The result of validate_smtp is the handled try-block result. -/
theorem vsmtp_fst (dns : DnsEnv) (smtp : SmtpEnv) (email : String) :
    (validate_smtp dns smtp email).fst =
      smtpHandle (validate_smtp_run dns smtp email).fst := rfl

/-- The except clauses of validate_smtp leave the transaction trace as the
try-block produced it. -/
theorem vsmtp_trace_eq (dns : DnsEnv) (smtp : SmtpEnv) (email : String) :
    (validate_smtp dns smtp email).snd = (validate_smtp_run dns smtp email).snd := rfl

/-- validate_smtp raises nothing: its final except clause catches every
exception. -/
theorem vsmtp_total (dns : DnsEnv) (smtp : SmtpEnv) (email : String) :
    ∃ v m, (validate_smtp dns smtp email).fst = .ok (v, m) :=
  smtpHandle_total (validate_smtp_run dns smtp email).fst

/-- validate_domain consults the resolver only at the domain split from
the raw input string. -/
theorem vd_env_eq (d1 d2 : DnsEnv) (email dom : String)
    (hd : rsplitDomain email = .ok dom)
    (ha : d1.a dom = d2.a dom) (haaaa : d1.aaaa dom = d2.aaaa dom) :
    validate_domain d1 email = validate_domain d2 email := by
  simp [validate_domain, validate_domain_body, hd, ha, haaaa]

/-- validate_mx_records consults the resolver only at the domain split
from the raw input string. -/
theorem vmx_env_eq (d1 d2 : DnsEnv) (email dom : String)
    (hd : rsplitDomain email = .ok dom)
    (hmx : d1.mx dom = d2.mx dom) :
    validate_mx_records d1 email = validate_mx_records d2 email := by
  simp [validate_mx_records, validate_mx_records_body, hd, hmx]

/-- With check_smtp = false the pipeline's report is determined by the
domain and MX stages alone: the SMTP environment is never consulted. -/
theorem ve_false_ext (d1 d2 : DnsEnv) (s1 s2 : SmtpEnv) (email : String)
    (hdom : validate_domain d1 email = validate_domain d2 email)
    (hmx : validate_mx_records d1 email = validate_mx_records d2 email) :
    validate_email d1 s1 email false = validate_email d2 s2 email false := by
  obtain ⟨v1, m1, h1⟩ := vs_total email
  obtain ⟨v2, m2, h2⟩ := vd_total d2 email
  obtain ⟨v3, m3, h3⟩ := vmx_total d2 email
  have h2l : validate_domain d1 email = .ok (v2, m2) := hdom.trans h2
  have h3l : validate_mx_records d1 email = .ok (v3, m3) := hmx.trans h3
  cases v1 <;> cases v2 <;> cases v3 <;>
    simp [validate_email, h1, h2, h3, h2l, h3l]

/-- An MX resolution outcome that yields no mail-exchange hostnames: the
resolver raises NoAnswer, or answers with an empty record list. -/
def DnsOutcome.noMxHosts : DnsOutcome → Bool
  | .noAnswer _ => true
  | .ans rs => rs.isEmpty
  | _ => false

/-- A resolver for which every name has an A record and one MX host. -/
def dnsOkEnv : DnsEnv :=
  ⟨fun _ => .ans ["93.184.216.34"], fun _ => .ans [],
   fun _ => .ans ["mx.example.com."]⟩

/-- A resolver whose MX lookups all raise NoAnswer (no MX records at
all), while A lookups still succeed. -/
def dnsNoMxEnv : DnsEnv :=
  ⟨fun _ => .ans ["93.184.216.34"], fun _ => .ans [],
   fun _ => .noAnswer
     "The DNS response does not contain an answer to the question: example.com. IN MX"⟩

/-- A resolver that differs from dnsOkEnv exactly on the A lookup of the
untrimmed domain string "example.com " (trailing blank). -/
def dnsSpacedEnv : DnsEnv :=
  ⟨fun q => if q = "example.com " then
      .nxdomain "The DNS query name does not exist: example.com ." else dnsOkEnv.a q,
   dnsOkEnv.aaaa, dnsOkEnv.mx⟩

/-- A fully cooperative SMTP server: banner, greetings, and 250 replies
up to RCPT, then a clean QUIT. -/
def smtpOkEnv : SmtpEnv :=
  ⟨.reply 220 "mx.example.com ESMTP", .reply 250 "mx.example.com Hello",
   .reply 250 "OK", .reply 250 "Accepted", .reply 221 "Bye"⟩

/-- smtpOkEnv, except that the server drops the connection on RCPT TO. -/
def smtpRcptDropEnv : SmtpEnv :=
  { smtpOkEnv with rcpt := .disconnected "Connection unexpectedly closed" }

/-- smtpOkEnv, except that the server rejects the HELO with a 550. -/
def smtpHeloRejectEnv : SmtpEnv :=
  { smtpOkEnv with helo := .reply 550 "go away" }

/-- smtpOkEnv, except that the TCP connection attempt is refused. -/
def smtpConnRefusedEnv : SmtpEnv :=
  { smtpOkEnv with connect := .exc "[Errno 111] Connection refused" }

/-- smtpOkEnv, except that the server drops the connection on QUIT,
after having answered 250 to RCPT TO. -/
def smtpQuitDropEnv : SmtpEnv :=
  { smtpOkEnv with quit := .disconnected "Connection unexpectedly closed" }

deriving instance DecidableEq for Except

/-- Bind on a successful Except value steps to the continuation. -/
theorem ok_bind {ε α β : Type} (a : α) (f : α → Except ε β) :
    (Except.ok a >>= f : Except ε β) = f a := rfl

/-- pure for Except is Except.ok. -/
theorem pure_eq_ok {ε α : Type} (a : α) : (pure a : Except ε α) = Except.ok a := rfl

/-- C2: for every input email string, every flag value and every network
environment, validate_email never lets an exception escape: the result is
always `.ok` of a complete report that echoes the input and whose checks
mapping starts with the syntax stage. -/
theorem validate_email_always_returns_report
    (dns : DnsEnv) (smtp : SmtpEnv) (email : String) (check_smtp : Bool) :
    ∃ r : Report, validate_email dns smtp email check_smtp = .ok r ∧
      r.email = email ∧ (r.checks.map Prod.fst).head? = some "syntax" := by
  obtain ⟨v1, m1, h1⟩ := vs_total email
  obtain ⟨v2, m2, h2⟩ := vd_total dns email
  obtain ⟨v3, m3, h3⟩ := vmx_total dns email
  obtain ⟨v4, m4, h4⟩ := vsmtp_total dns smtp email
  cases check_smtp <;> cases v1 <;> cases v2 <;> cases v3 <;> cases v4 <;>
    simp [validate_email, h1, h2, h3, h4, ok_bind, pure_eq_ok]

/-- C3: whenever the syntax stage rejects the input, validate_email
reports overall invalidity with the syntax entry as the only check: no
domain, mx_records or smtp entry exists. -/
theorem validate_email_invalid_syntax_only_syntax_entry
    (dns : DnsEnv) (smtp : SmtpEnv) (email : String) (check_smtp : Bool) (m : String)
    (h : validate_syntax email = .ok (false, m)) :
    validate_email dns smtp email check_smtp =
      .ok { email := email, is_valid := false,
            checks := [("syntax", CheckResult.mk false m)] } := by
  simp [validate_email, h, ok_bind, pure_eq_ok]

/-- C3 witness: the concrete input "invalid.email@" fails the syntax
stage and its report holds exactly one check. -/
theorem validate_email_invalid_syntax_only_syntax_entry_witness :
    validate_syntax "invalid.email@" = .ok (false, "Invalid email format") ∧
    validate_email dnsOkEnv smtpOkEnv "invalid.email@" false =
      .ok { email := "invalid.email@", is_valid := false,
            checks := [("syntax", CheckResult.mk false "Invalid email format")] } :=
  ⟨rfl, validate_email_invalid_syntax_only_syntax_entry dnsOkEnv smtpOkEnv
    "invalid.email@" false "Invalid email format" rfl⟩

/-- C8: with check_smtp = false and the DNS environment held constant,
validate_email is deterministic — the report does not depend on the SMTP
environment at all, so repeated calls agree structurally. -/
theorem validate_email_no_smtp_deterministic
    (dns : DnsEnv) (smtp1 smtp2 : SmtpEnv) (email : String) :
    validate_email dns smtp1 email false = validate_email dns smtp2 email false :=
  ve_false_ext dns dns smtp1 smtp2 email rfl rfl

/-- C10: the report's checks mapping has an "smtp" key exactly when
check_smtp is true and the syntax, domain and mx_records entries are all
present and valid; and whenever the smtp entry exists, the report's
overall validity equals that entry's own validity (so a failing SMTP
check is still recorded). -/
theorem validate_email_smtp_key_iff
    (dns : DnsEnv) (smtp : SmtpEnv) (email : String) (check_smtp : Bool) (r : Report)
    (h : validate_email dns smtp email check_smtp = .ok r) :
    r.hasCheck "smtp" =
      (check_smtp && r.checkValid "syntax" && r.checkValid "domain"
        && r.checkValid "mx_records") ∧
    (r.hasCheck "smtp" = true → r.is_valid = r.checkValid "smtp") := by
  obtain ⟨v1, m1, h1⟩ := vs_total email
  obtain ⟨v2, m2, h2⟩ := vd_total dns email
  obtain ⟨v3, m3, h3⟩ := vmx_total dns email
  obtain ⟨v4, m4, h4⟩ := vsmtp_total dns smtp email
  cases check_smtp <;> cases v1 <;> cases v2 <;> cases v3 <;> cases v4 <;>
    · simp [validate_email, h1, h2, h3, h4, ok_bind, pure_eq_ok] at h
      subst h
      refine ⟨rfl, fun hh => ?_⟩
      first
      | rfl
      | exact Bool.noConfusion hh

/-- The report of a fully successful validation with SMTP checking. -/
def reportOkSmtp : Report :=
  ⟨"user@example.com", true,
   [("syntax", ⟨true, "Syntax is valid"⟩),
    ("domain", ⟨true, "Domain exists"⟩),
    ("mx_records", ⟨true, "MX records found: mx.example.com."⟩),
    ("smtp", ⟨true, "SMTP verification passed (code 250)"⟩)]⟩

/-- C10 witness: a concrete fully-valid run with check_smtp = true. -/
theorem validate_email_smtp_key_iff_witness :
    validate_email dnsOkEnv smtpOkEnv "user@example.com" true = .ok reportOkSmtp ∧
    (reportOkSmtp.hasCheck "smtp" =
      (true && reportOkSmtp.checkValid "syntax" && reportOkSmtp.checkValid "domain"
        && reportOkSmtp.checkValid "mx_records") ∧
    (reportOkSmtp.hasCheck "smtp" = true →
      reportOkSmtp.is_valid = reportOkSmtp.checkValid "smtp")) :=
  ⟨by decide, validate_email_smtp_key_iff dnsOkEnv smtpOkEnv "user@example.com" true
    reportOkSmtp (by decide)⟩

set_option maxHeartbeats 1000000 in
/-- C1 amended: after the probe reaches the connect step, QUIT is
attempted exactly when connect, HELO, MAIL FROM and RCPT TO all return
server replies; on any exception raised mid-transaction the except
handlers produce the failure result without ever attempting QUIT. -/
theorem validate_smtp_quit_iff_transaction_replies
    (dns : DnsEnv) (smtp : SmtpEnv) (email : String) :
    (validate_smtp dns smtp email).snd.quitAttempted = true ↔
      ((validate_smtp dns smtp email).snd.connectAttempted = true ∧
       smtp.connect.isReply = true ∧ smtp.helo.isReply = true ∧
       smtp.mail.isReply = true ∧ smtp.rcpt.isReply = true) := by
  obtain ⟨sc, sh, sm, sr, sq⟩ := smtp
  simp only [vsmtp_trace_eq]
  unfold validate_smtp_run rsplitDomain
  rcases h0 : rsplitAtLast email with _ | ⟨lp, dom⟩
  · simp [SmtpStep.isReply]
  · dsimp only
    rcases hmx : dns.mx dom with rs | dd | dd | dd | dd | dd
    · rcases rs with _ | ⟨m0, rest⟩
      · simp [dnsRaise, SmtpStep.isReply]
      · cases sc with
        | reply c1 mm1 =>
          cases sh with
          | reply c2 mm2 =>
            cases sm with
            | reply c3 mm3 =>
              cases sr with
              | reply c4 mm4 => cases sq <;> simp [dnsRaise, stepRun, SmtpStep.isReply, apply_ite]
              | disconnected d => simp [dnsRaise, stepRun, SmtpStep.isReply]
              | respExc c e => simp [dnsRaise, stepRun, SmtpStep.isReply]
              | exc d => simp [dnsRaise, stepRun, SmtpStep.isReply]
            | disconnected d => simp [dnsRaise, stepRun, SmtpStep.isReply]
            | respExc c e => simp [dnsRaise, stepRun, SmtpStep.isReply]
            | exc d => simp [dnsRaise, stepRun, SmtpStep.isReply]
          | disconnected d => simp [dnsRaise, stepRun, SmtpStep.isReply]
          | respExc c e => simp [dnsRaise, stepRun, SmtpStep.isReply]
          | exc d => simp [dnsRaise, stepRun, SmtpStep.isReply]
        | disconnected d => simp [dnsRaise, stepRun, SmtpStep.isReply]
        | respExc c e => simp [dnsRaise, stepRun, SmtpStep.isReply]
        | exc d => simp [dnsRaise, stepRun, SmtpStep.isReply]
    all_goals simp [dnsRaise, SmtpStep.isReply]

/-- C1 counterexample: the server drops the connection on RCPT TO; the
probe reached connect, reports the disconnect, and never attempts QUIT. -/
theorem validate_smtp_rcpt_disconnect_skips_quit :
    smtpRcptDropEnv.connect.isReply = true ∧
    (validate_smtp dnsOkEnv smtpRcptDropEnv "user@example.com").snd.connectAttempted = true ∧
    (validate_smtp dnsOkEnv smtpRcptDropEnv "user@example.com").snd.quitAttempted = false ∧
    (validate_smtp dnsOkEnv smtpRcptDropEnv "user@example.com").fst =
      .ok (false, "SMTP server disconnected") :=
  ⟨rfl, rfl, rfl, rfl⟩

/-- C4 amended: when the MX resolution of the address's domain yields no
mail-exchange hostnames (the resolver raises NoAnswer, or answers with
an empty list so that mx_records[0] raises IndexError), validate_smtp
fails through the generic catch-all with message
"SMTP verification unavailable: <detail>" — there is no dedicated
NoMxRecords result in validate_smtp — and no TCP connection (and no
QUIT) is ever attempted. -/
theorem validate_smtp_no_mx_generic_unavailable
    (dns : DnsEnv) (smtp : SmtpEnv) (email dom : String)
    (hd : rsplitDomain email = .ok dom)
    (hmx : (dns.mx dom).noMxHosts = true) :
    ∃ d, (validate_smtp dns smtp email).fst =
        .ok (false, "SMTP verification unavailable: " ++ d) ∧
      (validate_smtp dns smtp email).snd.connectAttempted = false ∧
      (validate_smtp dns smtp email).snd.quitAttempted = false := by
  simp only [vsmtp_fst, vsmtp_trace_eq]
  unfold validate_smtp_run
  rw [hd]
  dsimp only
  rcases h : dns.mx dom with rs | dd | dd | dd | dd | dd <;>
    rw [h] at hmx <;> simp [DnsOutcome.noMxHosts] at hmx
  · subst hmx
    exact ⟨"list index out of range", rfl, rfl, rfl⟩
  · exact ⟨dd, rfl, rfl, rfl⟩

/-- C4 witness: a concrete resolver that raises NoAnswer on MX. -/
theorem validate_smtp_no_mx_generic_unavailable_witness :
    rsplitDomain "user@example.com" = .ok "example.com" ∧
    (dnsNoMxEnv.mx "example.com").noMxHosts = true ∧
    ∃ d, (validate_smtp dnsNoMxEnv smtpOkEnv "user@example.com").fst =
        .ok (false, "SMTP verification unavailable: " ++ d) ∧
      (validate_smtp dnsNoMxEnv smtpOkEnv "user@example.com").snd.connectAttempted = false ∧
      (validate_smtp dnsNoMxEnv smtpOkEnv "user@example.com").snd.quitAttempted = false :=
  ⟨rfl, rfl, validate_smtp_no_mx_generic_unavailable dnsNoMxEnv smtpOkEnv
    "user@example.com" "example.com" rfl rfl⟩

/-- C4 counterexample: with no MX records the probe's failure message is
the generic catch-all "SMTP verification unavailable: ...", not either of
the dedicated no-MX-records messages the code uses for that condition in
validate_mx_records. -/
theorem validate_smtp_no_mx_kind_cex :
    (dnsNoMxEnv.mx "example.com").noMxHosts = true ∧
    (validate_smtp dnsNoMxEnv smtpOkEnv "user@example.com").fst =
      .ok (false, "SMTP verification unavailable: The DNS response does not contain an answer to the question: example.com. IN MX") ∧
    ("SMTP verification unavailable: The DNS response does not contain an answer to the question: example.com. IN MX"
      ≠ "No MX records found") ∧
    ("SMTP verification unavailable: The DNS response does not contain an answer to the question: example.com. IN MX"
      ≠ "No MX records for domain") ∧
    (validate_smtp dnsNoMxEnv smtpOkEnv "user@example.com").snd.connectAttempted = false :=
  ⟨rfl, by decide, by decide, by decide, rfl⟩

/-- C5 amended: the code reads the HELO reply but never checks its code:
the probe's whole outcome is invariant under the HELO reply, so a non-2xx
greeting does not stop the transaction and there is no GreetRejected
failure. -/
theorem validate_smtp_helo_reply_ignored
    (dns : DnsEnv) (smtp : SmtpEnv) (email : String) (c1 c2 : Nat) (m1 m2 : String) :
    validate_smtp dns { smtp with helo := .reply c1 m1 } email =
      validate_smtp dns { smtp with helo := .reply c2 m2 } email := by
  obtain ⟨sc, sh, sm, sr, sq⟩ := smtp
  unfold validate_smtp
  have hrun : validate_smtp_run dns ⟨sc, .reply c1 m1, sm, sr, sq⟩ email =
      validate_smtp_run dns ⟨sc, .reply c2 m2, sm, sr, sq⟩ email := by
    unfold validate_smtp_run rsplitDomain
    rcases h0 : rsplitAtLast email with _ | ⟨lp, dom⟩
    · rfl
    · dsimp only
      rcases hmx : dns.mx dom with rs | dd | dd | dd | dd | dd
      · rcases rs with _ | ⟨m0, rest⟩
        · rfl
        · cases sc <;> rfl
      all_goals rfl
  rw [hrun]

/-- C5 counterexample: the HELO is answered 550-rejected, yet the probe
continues to MAIL FROM and RCPT TO and even reports overall success. -/
theorem validate_smtp_helo_rejected_still_passes :
    smtpHeloRejectEnv.helo = .reply 550 "go away" ∧
    (validate_smtp dnsOkEnv smtpHeloRejectEnv "user@example.com").fst =
      .ok (true, "SMTP verification passed (code 250)") ∧
    (validate_smtp dnsOkEnv smtpHeloRejectEnv "user@example.com").snd.quitAttempted = true :=
  ⟨rfl, rfl, rfl⟩

/-- C6 amended: a connection attempt that raises (refused, unreachable,
timed out) is caught by the generic handler and reported as
"SMTP verification unavailable: <detail>" — not a dedicated ConnectError
kind — and the transaction terminates without QUIT. -/
theorem validate_smtp_connect_exc_generic_unavailable
    (dns : DnsEnv) (smtp : SmtpEnv) (email d : String)
    (hc : smtp.connect = .exc d)
    (hr : (validate_smtp dns smtp email).snd.connectAttempted = true) :
    (validate_smtp dns smtp email).fst =
      .ok (false, "SMTP verification unavailable: " ++ d) ∧
    (validate_smtp dns smtp email).snd.quitAttempted = false := by
  rw [vsmtp_trace_eq] at hr
  simp only [vsmtp_fst, vsmtp_trace_eq]
  unfold validate_smtp_run at hr ⊢
  unfold rsplitDomain at hr ⊢
  rcases h0 : rsplitAtLast email with _ | ⟨lp, dom⟩
  · rw [h0] at hr; simp at hr
  · rw [h0] at hr
    dsimp only at hr ⊢
    rcases hmx : dns.mx dom with rs | dd | dd | dd | dd | dd
    · rw [hmx] at hr
      rcases rs with _ | ⟨m0, rest⟩
      · simp [dnsRaise] at hr
      · rw [hc]
        exact ⟨rfl, rfl⟩
    all_goals (rw [hmx] at hr; simp [dnsRaise] at hr)

/-- C6 witness: a concrete refused connection. -/
theorem validate_smtp_connect_exc_generic_unavailable_witness :
    smtpConnRefusedEnv.connect = .exc "[Errno 111] Connection refused" ∧
    (validate_smtp dnsOkEnv smtpConnRefusedEnv "user@example.com").snd.connectAttempted = true ∧
    ((validate_smtp dnsOkEnv smtpConnRefusedEnv "user@example.com").fst =
      .ok (false, "SMTP verification unavailable: " ++ "[Errno 111] Connection refused") ∧
     (validate_smtp dnsOkEnv smtpConnRefusedEnv "user@example.com").snd.quitAttempted = false) :=
  ⟨rfl, rfl, validate_smtp_connect_exc_generic_unavailable dnsOkEnv smtpConnRefusedEnv
    "user@example.com" "[Errno 111] Connection refused" rfl rfl⟩

/-- C6 counterexample: a refused connection yields the same catch-all
result shape as any other transport exception (here, one raised at MAIL
FROM) — the code realises no distinct ConnectError failure kind. -/
theorem validate_smtp_connect_refused_not_distinct_kind :
    (validate_smtp dnsOkEnv smtpConnRefusedEnv "user@example.com").fst =
      .ok (false, "SMTP verification unavailable: [Errno 111] Connection refused") ∧
    (validate_smtp dnsOkEnv smtpConnRefusedEnv "user@example.com").fst =
      (validate_smtp dnsOkEnv
        { smtpOkEnv with mail := .exc "[Errno 111] Connection refused" }
        "user@example.com").fst :=
  ⟨by decide, by decide⟩

/-- C7 amended: when the transaction reaches QUIT (so the RCPT TO reply
was observed) and QUIT itself returns a reply instead of raising, the
verdict is decided by the RCPT code: 250 or 251 give success with the
code noted, any other code gives failure carrying the code and the
server's message.  (When QUIT raises, its handler's failure result
replaces this verdict, which is what the counterexample shows.) -/
theorem validate_smtp_rcpt_code_verdict_modulo_quit
    (dns : DnsEnv) (smtp : SmtpEnv) (email : String) (code qc : Nat) (msg qm : String)
    (hrc : smtp.rcpt = .reply code msg)
    (hq : smtp.quit = .reply qc qm)
    (hreach : (validate_smtp dns smtp email).snd.quitAttempted = true) :
    (validate_smtp dns smtp email).fst =
      (if code = 250 || code = 251 then
        Except.ok (true, "SMTP verification passed (code " ++ toString code ++ ")")
      else
        Except.ok (false, "SMTP verification failed (code " ++ toString code ++ "): " ++ msg)) := by
  rw [vsmtp_trace_eq] at hreach
  rw [vsmtp_fst]
  unfold validate_smtp_run at hreach ⊢
  unfold rsplitDomain at hreach ⊢
  rcases h0 : rsplitAtLast email with _ | ⟨lp, dom⟩
  · rw [h0] at hreach; simp at hreach
  · rw [h0] at hreach
    dsimp only at hreach ⊢
    rcases hmx : dns.mx dom with rs | dd | dd | dd | dd | dd
    · rw [hmx] at hreach
      rcases rs with _ | ⟨m0, rest⟩
      · simp [dnsRaise] at hreach
      · cases hcn : smtp.connect with
        | reply cc cm =>
          rw [hcn] at hreach
          cases hh : smtp.helo with
          | reply hc2 hm2 =>
            rw [hh] at hreach
            cases hml : smtp.mail with
            | reply mc2 mm2 =>
              rw [hrc, hq]
              simp only [dnsRaise, stepRun]
              split_ifs <;> simp [smtpHandle]
            | disconnected d2 => rw [hml] at hreach; simp [dnsRaise, stepRun] at hreach
            | respExc cr er => rw [hml] at hreach; simp [dnsRaise, stepRun] at hreach
            | exc d2 => rw [hml] at hreach; simp [dnsRaise, stepRun] at hreach
          | disconnected d2 => rw [hh] at hreach; simp [dnsRaise, stepRun] at hreach
          | respExc cr er => rw [hh] at hreach; simp [dnsRaise, stepRun] at hreach
          | exc d2 => rw [hh] at hreach; simp [dnsRaise, stepRun] at hreach
        | disconnected d2 => rw [hcn] at hreach; simp [dnsRaise, stepRun] at hreach
        | respExc cr er => rw [hcn] at hreach; simp [dnsRaise, stepRun] at hreach
        | exc d2 => rw [hcn] at hreach; simp [dnsRaise, stepRun] at hreach
    all_goals (rw [hmx] at hreach; simp [dnsRaise] at hreach)

/-- C7 witness: a server that answers 250 to RCPT TO and replies to QUIT. -/
theorem validate_smtp_rcpt_code_verdict_modulo_quit_witness :
    smtpOkEnv.rcpt = .reply 250 "Accepted" ∧
    smtpOkEnv.quit = .reply 221 "Bye" ∧
    (validate_smtp dnsOkEnv smtpOkEnv "user@example.com").snd.quitAttempted = true ∧
    (validate_smtp dnsOkEnv smtpOkEnv "user@example.com").fst =
      (if (250 : Nat) = 250 || (250 : Nat) = 251 then
        Except.ok (true, "SMTP verification passed (code " ++ toString (250 : Nat) ++ ")")
      else
        Except.ok (false, "SMTP verification failed (code " ++ toString (250 : Nat) ++ "): " ++ "Accepted")) :=
  ⟨rfl, rfl, rfl, validate_smtp_rcpt_code_verdict_modulo_quit dnsOkEnv smtpOkEnv
    "user@example.com" 250 221 "Accepted" "Bye" rfl rfl rfl⟩

/-- C7 counterexample: RCPT TO is answered 250, but the server drops the
connection on the subsequent QUIT; the observed 250 does not yield
success — the disconnect handler's failure replaces it. -/
theorem validate_smtp_rcpt250_quit_disconnect_cex :
    smtpQuitDropEnv.rcpt = .reply 250 "Accepted" ∧
    (validate_smtp dnsOkEnv smtpQuitDropEnv "user@example.com").fst =
      .ok (false, "SMTP server disconnected") ∧
    (validate_smtp dnsOkEnv smtpQuitDropEnv "user@example.com").fst ≠
      .ok (true, "SMTP verification passed (code 250)") :=
  ⟨rfl, rfl, by decide⟩

/-- C9: the trimming done by the syntax stage is local to it.  The input
"user@example.com " (trailing blank) passes the syntax check, and the
later stages split the raw input, so every DNS lookup uses the untrimmed
domain "example.com ": the report never depends on what the resolver says
about the trimmed "example.com", and two resolvers that differ only at
"example.com " can produce different reports. -/
theorem validate_email_untrimmed_domain_forwarded :
    validate_syntax "user@example.com " = .ok (true, "Syntax is valid") ∧
    rsplitDomain "user@example.com " = .ok "example.com " ∧
    (∀ (smtp : SmtpEnv) (d1 d2 : DnsEnv),
      (∀ q, q ≠ "example.com" →
        d1.a q = d2.a q ∧ d1.aaaa q = d2.aaaa q ∧ d1.mx q = d2.mx q) →
      validate_email d1 smtp "user@example.com " false =
        validate_email d2 smtp "user@example.com " false) ∧
    (∀ q, q ≠ "example.com " →
      dnsSpacedEnv.a q = dnsOkEnv.a q ∧ dnsSpacedEnv.aaaa q = dnsOkEnv.aaaa q ∧
      dnsSpacedEnv.mx q = dnsOkEnv.mx q) ∧
    validate_email dnsSpacedEnv smtpOkEnv "user@example.com " false ≠
      validate_email dnsOkEnv smtpOkEnv "user@example.com " false := by
  refine ⟨rfl, rfl, ?_, ?_, ?_⟩
  · intro smtp d1 d2 hag
    have hq := hag "example.com " (by decide)
    exact ve_false_ext d1 d2 smtp smtp "user@example.com "
      (vd_env_eq d1 d2 "user@example.com " "example.com " rfl hq.1 hq.2.1)
      (vmx_env_eq d1 d2 "user@example.com " "example.com " rfl hq.2.2)
  · intro q hq
    refine ⟨?_, rfl, rfl⟩
    simp [dnsSpacedEnv, hq]
  · decide
